import Mathlib

/-!
Shallow embedding of the SafeEdge-Guardian core (the supervision decision
engine and the resilient frame source) for checking the natural-language
specification against the code.

Conventions of the embedding:
* 2D positions are integer points (the source computes bounding-box centres
  with `int(...)`, so every position fed to the decision engine is an
  integer pair).
* The source compares `math.sqrt(d2) < 120` and `math.sqrt(d2) > 3.0` on
  exact integer radicands; since `sqrt` is monotone and correctly rounded
  and both thresholds are exactly representable, these comparisons are
  equivalent to the exact integer comparisons `d2 < 120*120` and
  `d2 > 3*3`, which is how they are rendered here (squared distances
  throughout, no floating point).
* Wall-clock timestamps are rationals (seconds).
* Python dicts keyed by tracking id become association lists with
  last-write-wins update.
-/

namespace SafeEdge

/-- An integer 2D point: centre of a detected person's bounding box. -/
abbrev Pos := ℤ × ℤ

/-- Squared Euclidean distance between two points (the exact radicand of the
source's `math.sqrt((p1[0]-p2[0])**2 + (p1[1]-p2[1])**2)`). -/
def distSq (p q : Pos) : ℤ :=
  (p.1 - q.1) * (p.1 - q.1) + (p.2 - q.2) * (p.2 - q.2)

/-- Association-list lookup for dicts keyed by tracking id. -/
def lookupId {α : Type} : List (ℕ × α) → ℕ → Option α
  | [], _ => none
  | (k, v) :: rest, pid => if k = pid then some v else lookupId rest pid

/-- Association-list update: `d[pid] = v` (replace if present, else append). -/
def updateId {α : Type} : List (ℕ × α) → ℕ → α → List (ℕ × α)
  | [], pid, v => [(pid, v)]
  | (k, w) :: rest, pid, v =>
      if k = pid then (k, v) :: rest else (k, w) :: updateId rest pid v

/-! ## logic/danger_zone.py -/

/-- The `DangerZone` object: a fixed axis-aligned rectangle computed from the
frame dimensions in `DangerZone.__init__`. -/
structure DangerZone where
  frame_width : ℕ
  frame_height : ℕ
  x1 : ℤ
  y1 : ℤ
  x2 : ℤ
  y2 : ℤ
  deriving DecidableEq, Repr

/-- `DangerZone.__init__`: `x1 = int(frame_width * 0.75)` (exact: `0.75` and
the product are exactly representable for any realistic width, and `int`
truncation of the nonnegative product is floor division `3*w/4`),
`y1 = 0`, `x2 = frame_width`, `y2 = frame_height`. -/
def DangerZone.init (frame_width frame_height : ℕ) : DangerZone :=
  { frame_width := frame_width
    frame_height := frame_height
    x1 := ((3 * frame_width) / 4 : ℕ)
    y1 := 0
    x2 := frame_width
    y2 := frame_height }

/-- `DangerZone.is_inside`: `self.x1 <= x <= self.x2 and self.y1 <= y <= self.y2`. -/
def DangerZone.is_inside (z : DangerZone) (x y : ℤ) : Bool :=
  decide (z.x1 ≤ x ∧ x ≤ z.x2 ∧ z.y1 ≤ y ∧ y ≤ z.y2)

/-- `DangerZone.get_zone`: returns `(x1, y1, x2, y2)`. -/
def DangerZone.get_zone (z : DangerZone) : ℤ × ℤ × ℤ × ℤ :=
  (z.x1, z.y1, z.x2, z.y2)

/-! ## logic/supervision.py -/

/-- `SupervisionChecker` state: `self.prev_positions`, the per-adult-id
position recorded at that adult's previous evaluation. -/
structure SupervisionChecker where
  prev_positions : List (ℕ × Pos)
  deriving DecidableEq, Repr

/-- Threshold `self.MAX_DISTANCE = 120` (pixels). -/
def MAX_DISTANCE : ℤ := 120

/-- Threshold `self.MIN_MOTION = 3.0` (pixels per frame). -/
def MIN_MOTION : ℤ := 3

/-- `SupervisionChecker.motion_speed`, in squared form: on first sighting of
`pid`, record the position and return speed 0; otherwise return the squared
distance from the recorded previous position and record the current one.
Returns the squared speed and the updated checker. -/
def SupervisionChecker.motion_speed (s : SupervisionChecker) (pid : ℕ)
    (pos : Pos) : ℤ × SupervisionChecker :=
  match lookupId s.prev_positions pid with
  | none => (0, ⟨updateId s.prev_positions pid pos⟩)
  | some prev => (distSq prev pos, ⟨updateId s.prev_positions pid pos⟩)

/-- `SupervisionChecker.is_attentive`: true iff
`dist < self.MAX_DISTANCE and speed > self.MIN_MOTION`, rendered on squared
values; also returns the updated checker (the `motion_speed` call mutates
`prev_positions`). -/
def SupervisionChecker.is_attentive (s : SupervisionChecker) (adult_id : ℕ)
    (adult_pos child_pos : Pos) : Bool × SupervisionChecker :=
  let dSq := distSq adult_pos child_pos
  let r := s.motion_speed adult_id adult_pos
  (decide (dSq < MAX_DISTANCE * MAX_DISTANCE ∧ r.1 > MIN_MOTION * MIN_MOTION), r.2)

/-! ## main.py: per-frame supervision evaluation loop -/

/-- The three global statuses `"safe" | "warning" | "danger"` of `main`. -/
inductive Status where
  | safe
  | warning
  | danger
  deriving DecidableEq, Repr

/-- The inner nearest-adult scan of `main`: running fold with
`nearest_dist = float("inf")` initially and a strict `d2 < nearest_dist`
comparison, so the first-encountered adult wins ties. -/
def nearestAdultGo (cpos : Pos) (cur : Option ((ℕ × Pos) × ℤ)) :
    List (ℕ × Pos) → Option ((ℕ × Pos) × ℤ)
  | [] => cur
  | (aid, apos) :: rest =>
      let d2 := distSq apos cpos
      match cur with
      | none => nearestAdultGo cpos (some ((aid, apos), d2)) rest
      | some best =>
          if d2 < best.2 then nearestAdultGo cpos (some ((aid, apos), d2)) rest
          else nearestAdultGo cpos cur rest

/-- `nearest_adult` after the scan over the adults list. -/
def nearestAdult (cpos : Pos) (adults : List (ℕ × Pos)) : Option (ℕ × Pos) :=
  (nearestAdultGo cpos none adults).map (fun best => best.1)

/-- Result of the per-frame supervision evaluation in `main`:
`global_status`, the supervision checker (threaded through the
`is_attentive` calls), and `children_in_danger`. -/
structure EvalResult where
  status : Status
  supervisor : SupervisionChecker
  children_in_danger : List ℕ
  deriving DecidableEq, Repr

/-- The `for cid, cpos in children:` loop of `main`: skip children outside
the zone; otherwise find the nearest adult; with no adult the child is
unsupervised (`global_status = "danger"`, record the child, break); with a
nearest adult apply the attentiveness predicate, escalating to `"warning"`
when it fails (and breaking if the status were already `"danger"`). -/
def evalLoop (zone : DangerZone) (adults : List (ℕ × Pos)) :
    List (ℕ × Pos) → Status → List ℕ → SupervisionChecker → EvalResult
  | [], status, dlist, s => ⟨status, s, dlist⟩
  | (cid, cpos) :: rest, status, dlist, s =>
      if zone.is_inside cpos.1 cpos.2 then
        match nearestAdult cpos adults with
        | none =>
            -- `global_status = "danger"`, append cid, then the early break
            ⟨Status.danger, s, dlist ++ [cid]⟩
        | some a =>
            let r := s.is_attentive a.1 a.2 cpos
            if r.1 then
              evalLoop zone adults rest status dlist r.2
            else
              let status1 := if status ≠ Status.danger then Status.warning else status
              if status1 = Status.danger then ⟨Status.danger, r.2, dlist⟩
              else evalLoop zone adults rest status1 dlist r.2
      else
        evalLoop zone adults rest status dlist s

/-- One frame's supervision evaluation: the loop started with
`global_status = "safe"` and `children_in_danger = []`. -/
def evaluateFrame (zone : DangerZone) (children adults : List (ℕ × Pos))
    (s : SupervisionChecker) : EvalResult :=
  evalLoop zone adults children Status.safe [] s

/-! ## main.py: zone-crossing detection and alert cooldown

`main` keeps `child_zone_status = defaultdict(lambda: False)` and
`alert_cooldown = {}` (with `.get(child_id, 0)`), and
`ALERT_COOLDOWN_SECONDS = 3`. On each sighting of a child it compares the
current zone membership with the stored one; a `False → True` transition is
a crossing event and dispatches an alert unless that id alerted within the
cooldown. -/

/-- `ALERT_COOLDOWN_SECONDS = 3`. -/
def ALERT_COOLDOWN_SECONDS : ℚ := 3

/-- The per-child alerting state of `main`: `child_zone_status` (defaulting
to `false` for unseen ids) and `alert_cooldown` (defaulting to time `0`). -/
structure AlertState where
  child_zone_status : List (ℕ × Bool)
  alert_cooldown : List (ℕ × ℚ)
  deriving DecidableEq, Repr

/-- `child_zone_status[child_id]` with the defaultdict default `False`. -/
def AlertState.zoneStatus (st : AlertState) (child_id : ℕ) : Bool :=
  match lookupId st.child_zone_status child_id with
  | none => false
  | some b => b

/-- `alert_cooldown.get(child_id, 0)`. -/
def AlertState.lastAlert (st : AlertState) (child_id : ℕ) : ℚ :=
  match lookupId st.alert_cooldown child_id with
  | none => 0
  | some t => t

/-- One child sighting in `main`'s per-person loop: detect a crossing
(`in_zone and not was_in_zone`), dispatch an alert when the cooldown has
elapsed (`current_time - last_alert_time > ALERT_COOLDOWN_SECONDS`), record
the alert time, and always record the current zone membership. Returns the
new state and whether an alert was dispatched. -/
def processChild (st : AlertState) (child_id : ℕ) (in_zone : Bool)
    (now : ℚ) : AlertState × Bool :=
  let was_in_zone := st.zoneStatus child_id
  let r :=
    if in_zone && !was_in_zone then
      if now - st.lastAlert child_id > ALERT_COOLDOWN_SECONDS then
        ({ st with alert_cooldown := updateId st.alert_cooldown child_id now }, true)
      else (st, false)
    else (st, false)
  ({ r.1 with child_zone_status := updateId r.1.child_zone_status child_id in_zone },
   r.2)

/-- Run a sequence of sightings `(in_zone, time)` of one child through
`processChild`, counting dispatched alerts. -/
def runSightings (st : AlertState) (child_id : ℕ) :
    List (Bool × ℚ) → AlertState × ℕ
  | [] => (st, 0)
  | (z, t) :: rest =>
      let r := processChild st child_id z t
      let rec0 := runSightings r.1 child_id rest
      (rec0.1, (if r.2 then 1 else 0) + rec0.2)

/-! ## utils/camera.py: ThreadedCamera

The producer thread, reconnect policy and non-blocking read of
`ThreadedCamera`. Interaction with the actual video backend is abstracted
into an explicit environment per loop iteration: the wall-clock time, the
result of `self.cap.read()` (`none` for a failed / empty / exception read,
`some f` for a successfully grabbed nonempty frame), and whether a
`cv2.VideoCapture` opened during this iteration's `_reconnect` or
`_refresh_stream` call reports open. Frames are abstracted to lists of
bytes (`frame.size > 0` becomes a nonempty list). -/

/-- A decoded frame, abstracted to its pixel bytes. -/
abbrev Frame := List ℕ

/-- `self.max_reconnect_attempts = 5`. -/
def max_reconnect_attempts : ℕ := 5

/-- `self.stale_frame_threshold = 5.0` seconds. -/
def stale_frame_threshold : ℚ := 5

/-- `max_consecutive_failures = 30` (local to `_update`). -/
def max_consecutive_failures : ℕ := 30

/-- `self.refresh_interval = 300` seconds. -/
def refresh_interval : ℚ := 300

/-- The fields of `ThreadedCamera` the core logic reads and writes.
`capOpen` stands for `self.cap.isOpened()`. -/
structure ThreadedCamera where
  is_stream : Bool
  capOpen : Bool
  frame : Option Frame
  grabbed : Bool
  stopped : Bool
  last_refresh : ℚ
  last_successful_read : ℚ
  reconnect_attempts : ℕ
  frame_count : ℕ
  deriving DecidableEq, Repr

/-- `ThreadedCamera.__init__` at time `now`: `frame = None`,
`grabbed = False`, `stopped = False`, timestamps set to `now`, counters
zero; `capOpen` is whatever `cv2.VideoCapture(src)` yields. -/
def ThreadedCamera.init (is_stream capOpen : Bool) (now : ℚ) : ThreadedCamera :=
  { is_stream := is_stream
    capOpen := capOpen
    frame := none
    grabbed := false
    stopped := false
    last_refresh := now
    last_successful_read := now
    reconnect_attempts := 0
    frame_count := 0 }

/-- Environment of one `_update` iteration: the current time, the backend
read result, and the open-status of a freshly re-initialised capture (the
failure branch can call `_reconnect` twice in one iteration — once for
staleness, once for the consecutive-failure cap — so two reopen outcomes
are provided). -/
structure StepEnv where
  now : ℚ
  readFrame : Option Frame
  reopenOk : Bool
  reopenOk2 : Bool
  deriving DecidableEq, Repr

/-- `ThreadedCamera._reconnect`: at the attempt cap, set `self.stopped` and
report failure; otherwise release and reopen the capture (outcome
`reopenOk`), increment the attempt counter, and report whether the new
capture is open. -/
def ThreadedCamera.reconnect (cam : ThreadedCamera) (reopenOk : Bool) :
    ThreadedCamera × Bool :=
  if cam.reconnect_attempts ≥ max_reconnect_attempts then
    ({ cam with stopped := true }, false)
  else
    ({ cam with capOpen := reopenOk,
                reconnect_attempts := cam.reconnect_attempts + 1 }, reopenOk)

/-- `ThreadedCamera._refresh_stream`: reopen the capture and reset
`last_refresh` and the reconnect counter. -/
def ThreadedCamera.refresh_stream (cam : ThreadedCamera) (reopenOk : Bool)
    (now : ℚ) : ThreadedCamera :=
  { cam with capOpen := reopenOk
             last_refresh := now
             reconnect_attempts := 0 }

/-- The shared failure branch of `_update` (read not grabbed / empty frame /
read exception): bump the consecutive-failure counter; if the stream is
stale, `_reconnect` (break on failure); then if the counter reached the
cap, reset it and `_reconnect` again (break on failure). Returns the new
camera, the new counter, and whether the loop continues. -/
def failBranch (cam : ThreadedCamera) (cf : ℕ) (env : StepEnv) :
    ThreadedCamera × ℕ × Bool :=
  let cf1 := cf + 1
  let afterStale : ThreadedCamera × Bool :=
    if env.now - cam.last_successful_read > stale_frame_threshold then
      cam.reconnect env.reopenOk
    else (cam, true)
  if afterStale.2 then
    if cf1 ≥ max_consecutive_failures then
      let r := afterStale.1.reconnect env.reopenOk2
      (r.1, 0, r.2)
    else (afterStale.1, cf1, true)
  else (afterStale.1, cf1, false)

/-- One iteration of the `while not self.stopped` body of
`ThreadedCamera._update` (the caller checks `stopped` before entering):
periodic refresh for network streams, liveness check with reconnect, then
the read attempt — on success store the frame, stamp the success time,
bump `frame_count`, and reset both failure counters; on failure defer to
`failBranch`. Returns the new camera, the new consecutive-failure counter,
and whether the loop continues. -/
def ThreadedCamera.updateStep (cam0 : ThreadedCamera) (cf : ℕ)
    (env : StepEnv) : ThreadedCamera × ℕ × Bool :=
  let cam :=
    if cam0.is_stream && decide (env.now - cam0.last_refresh > refresh_interval)
    then cam0.refresh_stream env.reopenOk env.now
    else cam0
  if cam.capOpen then
    match env.readFrame with
    | some f =>
        if 0 < f.length then
          ({ cam with frame := some f
                      grabbed := true
                      last_successful_read := env.now
                      frame_count := cam.frame_count + 1
                      reconnect_attempts := 0 }, 0, true)
        else failBranch cam cf env
    | none => failBranch cam cf env
  else
    let r := cam.reconnect env.reopenOk
    (r.1, cf, r.2)

/-- Iterate `updateStep` over a list of per-iteration environments,
respecting the loop guard (`while not self.stopped`) and the `break`s. -/
def runProducer : ThreadedCamera → ℕ → List StepEnv → ThreadedCamera × ℕ
  | cam, cf, [] => (cam, cf)
  | cam, cf, env :: rest =>
      if cam.stopped then (cam, cf)
      else
        let r := cam.updateStep cf env
        if r.2.2 then runProducer r.1 r.2.1 rest else (r.1, r.2.1)

/-- `ThreadedCamera.read`: non-blocking; `(False, None)` when the slot has
no frame or an empty one, otherwise `(self.grabbed, self.frame.copy())` —
the returned frame is a copy of the slot's contents (modelled by value
semantics). Note the source consults no clock here. -/
def ThreadedCamera.read (cam : ThreadedCamera) : Bool × Option Frame :=
  match cam.frame with
  | none => (false, none)
  | some f => if f.length = 0 then (false, none) else (cam.grabbed, some f)

/-- `ThreadedCamera.isOpened` at time `now`: the capture reports open and
the last successful read is within the staleness threshold. -/
def ThreadedCamera.isOpened (cam : ThreadedCamera) (now : ℚ) : Bool :=
  if !cam.capOpen then false
  else decide (now - cam.last_successful_read < stale_frame_threshold)

/-- `ThreadedCamera.get_stream_health` at time `now` (the fields the spec
names): health flag, seconds since the last frame, frame count, reconnect
attempts. -/
def ThreadedCamera.get_stream_health (cam : ThreadedCamera) (now : ℚ) :
    Bool × ℚ × ℕ × ℕ :=
  (decide (now - cam.last_successful_read < stale_frame_threshold),
   now - cam.last_successful_read, cam.frame_count, cam.reconnect_attempts)

/-! ## Helper lemmas -/

/-- Updating a key then looking it up yields the new value. -/
lemma lookupId_updateId_self {α : Type} :
    ∀ (l : List (ℕ × α)) (pid : ℕ) (v : α),
      lookupId (updateId l pid v) pid = some v := by
  intro l pid v
  induction l with
  | nil => simp [updateId, lookupId]
  | cons hd tl ih =>
      by_cases h : hd.1 = pid
      · simp [updateId, lookupId, h]
      · cases hd with
        | mk k w => simp_all [updateId, lookupId]

/-- The squared distance from a point to itself is zero. -/
lemma distSq_self (p : Pos) : distSq p p = 0 := by
  simp [distSq]

/-- With no adults in the frame, the nearest-adult scan finds nothing. -/
lemma nearestAdult_nil (cpos : Pos) : nearestAdult cpos [] = none := rfl

/-- With a single adult in the frame, the scan returns that adult. -/
lemma nearestAdult_single (cpos : Pos) (aid : ℕ) (apos : Pos) :
    nearestAdult cpos [(aid, apos)] = some (aid, apos) := rfl

/-- The attentiveness call always re-records the adult's current position. -/
lemma is_attentive_state (s : SupervisionChecker) (aid : ℕ)
    (apos cpos : Pos) :
    (s.is_attentive aid apos cpos).2 =
      ⟨updateId s.prev_positions aid apos⟩ := by
  unfold SupervisionChecker.is_attentive SupervisionChecker.motion_speed
  cases h : lookupId s.prev_positions aid <;> simp [h]

/-- An adult whose recorded previous position is absent (first sighting) or
equal to its current position has squared speed 0, hence is not attentive. -/
lemma is_attentive_stationary_false (s : SupervisionChecker) (aid : ℕ)
    (apos cpos : Pos)
    (h : lookupId s.prev_positions aid = none ∨
         lookupId s.prev_positions aid = some apos) :
    (s.is_attentive aid apos cpos).1 = false := by
  unfold SupervisionChecker.is_attentive SupervisionChecker.motion_speed
  rcases h with h | h <;>
    simp [h, distSq_self, MIN_MOTION]

/-- Evaluating a frame with one child inside the zone and one adult reduces
to the attentiveness test against that adult. -/
lemma evaluateFrame_single (zone : DangerZone) (cid aid : ℕ)
    (cpos apos : Pos) (s : SupervisionChecker)
    (hin : zone.is_inside cpos.1 cpos.2 = true) :
    evaluateFrame zone [(cid, cpos)] [(aid, apos)] s =
      if (s.is_attentive aid apos cpos).1 then
        ⟨Status.safe, (s.is_attentive aid apos cpos).2, []⟩
      else
        ⟨Status.warning, (s.is_attentive aid apos cpos).2, []⟩ := by
  by_cases hatt : (s.is_attentive aid apos cpos).1 = true <;>
    simp [evaluateFrame, evalLoop, nearestAdult, nearestAdultGo, hin, hatt]

/-- With no adults, the evaluation loop reports DANGER as soon as it meets a
child inside the zone. -/
lemma evalLoop_no_adults_danger (zone : DangerZone) :
    ∀ (children : List (ℕ × Pos)) (status : Status) (dlist : List ℕ)
      (s : SupervisionChecker),
      (∃ c ∈ children, zone.is_inside c.2.1 c.2.2 = true) →
      (evalLoop zone [] children status dlist s).status = Status.danger := by
  intro children
  induction children with
  | nil => intro status dlist s h; simp at h
  | cons hd tl ih =>
      intro status dlist s h
      by_cases hz : zone.is_inside hd.2.1 hd.2.2 = true
      · cases hd with
        | mk cid cpos =>
            simp only [evalLoop, hz, if_true, nearestAdult_nil]
      · cases hd with
        | mk cid cpos =>
            rcases h with ⟨c, hc, hcz⟩
            rcases List.mem_cons.mp hc with rfl | hmem
            · exact absurd hcz hz
            · simp only [evalLoop, hz, if_false, Bool.false_eq_true]
              exact ih status dlist s ⟨c, hmem, hcz⟩

/-! ## Claim theorems -/

/-- C1: for every evaluated frame, if zero adults are present and some child
is inside the danger zone, the frame's global status is DANGER — the first
in-zone child the loop meets has no nearest adult, is unsupervised, and
escalates the status to DANGER with no exception. -/
theorem c1_zero_adults_in_zone_danger
    (zone : DangerZone) (children : List (ℕ × Pos)) (s : SupervisionChecker)
    (h : ∃ c ∈ children, zone.is_inside c.2.1 c.2.2 = true) :
    (evaluateFrame zone children [] s).status = Status.danger :=
  evalLoop_no_adults_danger zone children Status.safe [] s h

/-- C1 witness: frame 480×360, one child at (400,100) (inside the zone),
no adults. -/
theorem c1_witness :
    (evaluateFrame (DangerZone.init 480 360) [(1, (400, 100))] []
        ⟨[]⟩).status = Status.danger :=
  c1_zero_adults_in_zone_danger (DangerZone.init 480 360) [(1, (400, 100))]
    ⟨[]⟩ ⟨(1, (400, 100)), by simp, by decide⟩

/-- C2: a child outside the danger zone is skipped entirely by the
evaluation loop — the loop's result (status, supervision state, danger
list) is exactly what it is without that child, so the child contributes
SAFE for any adult positions and no distance computation, supervisor lookup
or previous-position update happens for it; a frame holding only such a
child evaluates to SAFE with the supervision state untouched. -/
theorem c2_outside_zone_skipped
    (zone : DangerZone) (adults : List (ℕ × Pos)) (cid : ℕ) (cpos : Pos)
    (rest : List (ℕ × Pos)) (status : Status) (dlist : List ℕ)
    (s : SupervisionChecker)
    (hout : zone.is_inside cpos.1 cpos.2 = false) :
    (evalLoop zone adults ((cid, cpos) :: rest) status dlist s =
       evalLoop zone adults rest status dlist s) ∧
    evaluateFrame zone [(cid, cpos)] adults s =
      ⟨Status.safe, s, []⟩ := by
  constructor
  · simp [evalLoop, hout]
  · simp [evaluateFrame, evalLoop, hout]

/-- C2 witness: frame 480×360, child at (100,100) (outside the zone), an
adult present at (110,100). -/
theorem c2_witness :
    (evalLoop (DangerZone.init 480 360) [(7, (110, 100))]
        [(1, (100, 100))] Status.safe [] ⟨[]⟩ =
      evalLoop (DangerZone.init 480 360) [(7, (110, 100))] [] Status.safe []
        ⟨[]⟩) ∧
    evaluateFrame (DangerZone.init 480 360) [(1, (100, 100))]
        [(7, (110, 100))] ⟨[]⟩ = ⟨Status.safe, ⟨[]⟩, []⟩ :=
  c2_outside_zone_skipped (DangerZone.init 480 360) [(7, (110, 100))] 1
    (100, 100) [] Status.safe [] ⟨[]⟩ (by decide)

/-- C3: the attentiveness predicate holds iff the (squared) Euclidean
distance between adult and child is below the 120-unit threshold and the
adult's (squared) frame-to-frame displacement — the diff of its current
position against the position recorded on its previous evaluation —
exceeds the 3-unit motion threshold; the first sighting of an adult id
yields zero motion and is therefore non-attentive; and the call records
the adult's current position for the next frame. -/
theorem c3_attentiveness_predicate
    (s : SupervisionChecker) (aid : ℕ) (apos cpos : Pos) :
    ((s.is_attentive aid apos cpos).1 = true ↔
       distSq apos cpos < MAX_DISTANCE * MAX_DISTANCE ∧
       (match lookupId s.prev_positions aid with
        | none => (0 : ℤ)
        | some prev => distSq prev apos) > MIN_MOTION * MIN_MOTION) ∧
    (lookupId s.prev_positions aid = none →
       (s.is_attentive aid apos cpos).1 = false) ∧
    lookupId (s.is_attentive aid apos cpos).2.prev_positions aid =
      some apos := by
  refine ⟨?_, ?_, ?_⟩
  · unfold SupervisionChecker.is_attentive SupervisionChecker.motion_speed
    cases h : lookupId s.prev_positions aid <;> simp [h]
  · intro h
    exact is_attentive_stationary_false s aid apos cpos (Or.inl h)
  · rw [is_attentive_state]
    exact lookupId_updateId_self s.prev_positions aid apos

/-- C3 witness: adult 7 at (390,105) with recorded previous position
(300,105), child at (400,100): distance² = 125 < 120², displacement² =
8100 > 3², so attentive; and a first sighting of adult 8 is
non-attentive. -/
theorem c3_witness :
    ((SupervisionChecker.mk [(7, (300, 105))]).is_attentive 7 (390, 105)
        (400, 100)).1 = true ∧
    ((SupervisionChecker.mk []).is_attentive 8 (390, 105) (400, 100)).1 =
      false ∧
    lookupId ((SupervisionChecker.mk [(7, (300, 105))]).is_attentive 7
        (390, 105) (400, 100)).2.prev_positions 7 = some (390, 105) := by
  refine ⟨?_, ?_, ?_⟩
  · exact (c3_attentiveness_predicate ⟨[(7, (300, 105))]⟩ 7 (390, 105)
      (400, 100)).1.mpr (by decide)
  · exact (c3_attentiveness_predicate ⟨[]⟩ 8 (390, 105) (400, 100)).2.1 rfl
  · exact (c3_attentiveness_predicate ⟨[(7, (300, 105))]⟩ 7 (390, 105)
      (400, 100)).2.2

/-- C8: the danger zone is a pure function of the frame dimensions — the
rectangle `[int(0.75·w), 0, w, h]` (for widths divisible by 4 the left edge
is exactly 0.75·w); `is_inside` is the inclusive-bounds containment test
`x1 ≤ x ≤ x2 ∧ y1 ≤ y ≤ y2`; and for 480×360 the zone is
`[360, 0, 480, 360]`, with both rectangle corners inside. -/
theorem c8_danger_zone_geometry :
    (∀ w h : ℕ, (DangerZone.init w h).get_zone =
       ((((3 * w) / 4 : ℕ) : ℤ), 0, (w : ℤ), (h : ℤ))) ∧
    (∀ w h : ℕ, w % 4 = 0 → (DangerZone.init w h).x1 * 4 = 3 * w) ∧
    (∀ (z : DangerZone) (x y : ℤ),
       z.is_inside x y = true ↔
         x ∈ Set.Icc z.x1 z.x2 ∧ y ∈ Set.Icc z.y1 z.y2) ∧
    (DangerZone.init 480 360).get_zone = (360, 0, 480, 360) ∧
    (DangerZone.init 480 360).is_inside 360 0 = true ∧
    (DangerZone.init 480 360).is_inside 480 360 = true ∧
    (DangerZone.init 480 360).is_inside 359 100 = false := by
  refine ⟨?_, ?_, ?_, by decide, by decide, by decide, by decide⟩
  · intro w h; rfl
  · intro w h hmod
    obtain ⟨k, rfl⟩ := Nat.dvd_of_mod_eq_zero hmod
    show (((3 * (4 * k)) / 4 : ℕ) : ℤ) * 4 = 3 * ((4 * k : ℕ) : ℤ)
    have h4 : (3 * (4 * k)) / 4 = 3 * k := by omega
    rw [h4]; push_cast; ring
  · intro z x y
    simp [DangerZone.is_inside, Set.mem_Icc, and_assoc]

/-- C8 witness: the general conjuncts applied at frame 481×360 (width not a
multiple of 4 uses the floor; 480 is exactly 0.75·480 = 360). -/
theorem c8_witness :
    (DangerZone.init 481 360).get_zone = (360, 0, 481, 360) ∧
    (DangerZone.init 480 360).x1 * 4 = 3 * 480 ∧
    ((DangerZone.init 480 360).is_inside 400 100 = true ↔
       (400 : ℤ) ∈ Set.Icc (DangerZone.init 480 360).x1
           (DangerZone.init 480 360).x2 ∧
       (100 : ℤ) ∈ Set.Icc (DangerZone.init 480 360).y1
           (DangerZone.init 480 360).y2) := by
  refine ⟨?_, ?_, ?_⟩
  · have h := c8_danger_zone_geometry.1 481 360
    simpa using h
  · have h := c8_danger_zone_geometry.2.1 480 360 (by decide)
    simpa using h
  · exact c8_danger_zone_geometry.2.2.1 (DangerZone.init 480 360) 400 100

/-- C4 counterexample: frame 480×360, child 1 at (400,100) inside the zone,
exactly one adult (id 7) at (403,100) whose distance to the child is 3 <
120 (within the proximity threshold) and whose displacement since its
recorded previous position (400,100) is exactly 3, i.e. ≥ the 3-unit
motion threshold — yet the frame evaluates to WARNING, not SAFE, because
the code requires the displacement to be strictly greater than 3. -/
theorem c4_counterexample :
    ((DangerZone.init 480 360).is_inside 400 100 = true) ∧
    distSq (403, 100) (400, 100) < MAX_DISTANCE * MAX_DISTANCE ∧
    lookupId (SupervisionChecker.mk [(7, (400, 100))]).prev_positions 7 =
      some (400, 100) ∧
    distSq (400, 100) (403, 100) ≥ MIN_MOTION * MIN_MOTION ∧
    (evaluateFrame (DangerZone.init 480 360) [(1, (400, 100))]
        [(7, (403, 100))] ⟨[(7, (400, 100))]⟩).status = Status.warning ∧
    Status.warning ≠ Status.safe := by
  refine ⟨by decide, by decide, by decide, by decide, ?_, by decide⟩
  decide

/-- C4 (amended): for a child inside the danger zone with exactly one adult
present, if that adult is within the proximity threshold (distance < 120)
and its displacement since the position recorded on its previous frame is
STRICTLY GREATER than the 3-unit motion threshold, the frame containing
that child evaluates to SAFE. -/
theorem c4_strict_motion_safe
    (zone : DangerZone) (cid aid : ℕ) (cpos apos prev : Pos)
    (s : SupervisionChecker)
    (hin : zone.is_inside cpos.1 cpos.2 = true)
    (hnear : distSq apos cpos < MAX_DISTANCE * MAX_DISTANCE)
    (hprev : lookupId s.prev_positions aid = some prev)
    (hmove : distSq prev apos > MIN_MOTION * MIN_MOTION) :
    (evaluateFrame zone [(cid, cpos)] [(aid, apos)] s).status =
      Status.safe := by
  have hatt : (s.is_attentive aid apos cpos).1 = true := by
    unfold SupervisionChecker.is_attentive SupervisionChecker.motion_speed
    simp [hprev, hnear, hmove]
  rw [evaluateFrame_single zone cid aid cpos apos s hin, if_pos hatt]

/-- C4 witness: the spec's own concrete scenario — child at (400,100),
adult at (390,105) whose previous recorded position was (300,105)
(displacement 90 > 3, distance ≈ 10.9 < 120) → SAFE. -/
theorem c4_witness :
    (evaluateFrame (DangerZone.init 480 360) [(1, (400, 100))]
        [(7, (390, 105))] ⟨[(7, (300, 105))]⟩).status = Status.safe :=
  c4_strict_motion_safe (DangerZone.init 480 360) 1 7 (400, 100) (390, 105)
    (300, 105) ⟨[(7, (300, 105))]⟩ (by decide) (by decide) (by decide)
    (by decide)

/-- C9: evaluating the same static frame twice in a row — one child inside
the zone, one adult within the proximity threshold whose recorded previous
position is absent or equal to its current position — yields WARNING both
times: the adult's displacement is zero on both evaluations, the
attentiveness predicate fails both times, and the result never becomes
SAFE. -/
theorem c9_static_frame_warning_twice
    (zone : DangerZone) (cid aid : ℕ) (cpos apos : Pos)
    (s : SupervisionChecker)
    (hin : zone.is_inside cpos.1 cpos.2 = true)
    (hstill : lookupId s.prev_positions aid = none ∨
              lookupId s.prev_positions aid = some apos) :
    (evaluateFrame zone [(cid, cpos)] [(aid, apos)] s).status =
      Status.warning ∧
    (evaluateFrame zone [(cid, cpos)] [(aid, apos)]
        (evaluateFrame zone [(cid, cpos)] [(aid, apos)] s).supervisor).status =
      Status.warning := by
  have h1 : (s.is_attentive aid apos cpos).1 = false :=
    is_attentive_stationary_false s aid apos cpos hstill
  have e1 := evaluateFrame_single zone cid aid cpos apos s hin
  rw [h1] at e1
  simp only [Bool.false_eq_true, if_false] at e1
  refine ⟨by rw [e1], ?_⟩
  rw [e1]
  set s1 : SupervisionChecker := (s.is_attentive aid apos cpos).2 with hs1
  have hrec : lookupId s1.prev_positions aid = some apos := by
    rw [hs1, is_attentive_state]
    exact lookupId_updateId_self s.prev_positions aid apos
  have h2 : (s1.is_attentive aid apos cpos).1 = false :=
    is_attentive_stationary_false s1 aid apos cpos (Or.inr hrec)
  have e2 := evaluateFrame_single zone cid aid cpos apos s1 hin
  rw [h2] at e2
  simp only [Bool.false_eq_true, if_false] at e2
  rw [e2]

/-- C9 witness: frame 480×360, child at (400,100), adult at (390,105) never
seen before (fresh supervision state): WARNING on both evaluations. -/
theorem c9_witness :
    (evaluateFrame (DangerZone.init 480 360) [(1, (400, 100))]
        [(7, (390, 105))] ⟨[]⟩).status = Status.warning ∧
    (evaluateFrame (DangerZone.init 480 360) [(1, (400, 100))]
        [(7, (390, 105))]
        (evaluateFrame (DangerZone.init 480 360) [(1, (400, 100))]
            [(7, (390, 105))] ⟨[]⟩).supervisor).status = Status.warning :=
  c9_static_frame_warning_twice (DangerZone.init 480 360) 1 7 (400, 100)
    (390, 105) ⟨[]⟩ (by decide) (Or.inl rfl)

/-- C5: for any tracking id, two zone-crossing events less than the
3-second cooldown apart (entry at `t1`, exit, re-entry at `t2` with
`t2 - t1 < 3`) yield exactly one dispatched alert from a fresh state: the
first crossing dispatches (its default last-alert time is 0 and `t1 > 3`)
and records `t1` as the id's last-alert timestamp; the second crossing is
suppressed because the time since that alert does not exceed the
cooldown. -/
theorem c5_cooldown_one_alert (cid : ℕ) (t1 tm t2 : ℚ)
    (h1 : t1 > ALERT_COOLDOWN_SECONDS)
    (h2 : t2 - t1 < ALERT_COOLDOWN_SECONDS) :
    (runSightings ⟨[], []⟩ cid [(true, t1), (false, tm), (true, t2)]).2 =
      1 ∧
    (processChild ⟨[], []⟩ cid true t1).2 = true ∧
    (processChild ⟨[], []⟩ cid true t1).1.lastAlert cid = t1 := by
  have hfire : ALERT_COOLDOWN_SECONDS < t1 := h1
  have hsupp : ¬ ALERT_COOLDOWN_SECONDS < t2 - t1 := by linarith
  refine ⟨?_, ?_, ?_⟩ <;>
    simp [runSightings, processChild, AlertState.zoneStatus,
      AlertState.lastAlert, lookupId, updateId, hfire, hsupp]

/-- C5 witness: child 4 enters at t=10s, exits at t=11s, re-enters at
t=12s (2s after the first alert): exactly one alert. -/
theorem c5_witness :
    (runSightings ⟨[], []⟩ 4 [(true, 10), (false, 11), (true, 12)]).2 =
      1 ∧
    (processChild ⟨[], []⟩ 4 true 10).2 = true ∧
    (processChild ⟨[], []⟩ 4 true 10).1.lastAlert 4 = 10 :=
  c5_cooldown_one_alert 4 10 11 12 (by norm_num [ALERT_COOLDOWN_SECONDS])
    (by norm_num [ALERT_COOLDOWN_SECONDS])

/-- C10: a child id seen for the very first time (absent from both the
zone-membership map, whose defaultdict default is `False`, and the
cooldown map, whose default last-alert time is 0) while already inside the
danger zone is treated as a crossing event, and provided the clock exceeds
the 3-second cooldown measured from the default time 0 — i.e. no alert for
that id within the preceding 3 seconds — an alert is dispatched on that
first frame, the membership is recorded as in-zone, and the alert time is
recorded. -/
theorem c10_first_sighting_alert (st : AlertState) (cid : ℕ) (t : ℚ)
    (hz : lookupId st.child_zone_status cid = none)
    (hc : lookupId st.alert_cooldown cid = none)
    (ht : t > ALERT_COOLDOWN_SECONDS) :
    (processChild st cid true t).2 = true ∧
    (processChild st cid true t).1.zoneStatus cid = true ∧
    (processChild st cid true t).1.lastAlert cid = t := by
  have hfire : ALERT_COOLDOWN_SECONDS < t := ht
  refine ⟨?_, ?_, ?_⟩ <;>
    simp [processChild, AlertState.zoneStatus, AlertState.lastAlert, hz, hc,
      hfire, lookupId_updateId_self]

/-- C10 witness: fresh child 9 first seen inside the zone at t=10s:
alert dispatched, membership and alert time recorded. -/
theorem c10_witness :
    (processChild ⟨[], []⟩ 9 true 10).2 = true ∧
    (processChild ⟨[], []⟩ 9 true 10).1.zoneStatus 9 = true ∧
    (processChild ⟨[], []⟩ 9 true 10).1.lastAlert 9 = 10 :=
  c10_first_sighting_alert ⟨[], []⟩ 9 10 rfl rfl
    (by norm_num [ALERT_COOLDOWN_SECONDS])

/-- A camera (local source, capture open) right after its first successful
frame read at time 0: the slot holds the frame `[1, 2, 3]`. -/
def camAfterFirstFrame : ThreadedCamera :=
  ((ThreadedCamera.init false true 0).updateStep 0
    ⟨0, some [1, 2, 3], true, true⟩).1

/-- Explicit form of `camAfterFirstFrame`: one successful read happened. -/
lemma camAfterFirstFrame_eq :
    camAfterFirstFrame =
      { is_stream := false, capOpen := true, frame := some [1, 2, 3],
        grabbed := true, stopped := false, last_refresh := 0,
        last_successful_read := 0, reconnect_attempts := 0,
        frame_count := 1 } := by
  simp [camAfterFirstFrame, ThreadedCamera.updateStep, ThreadedCamera.init]

/-- C7 counterexample: at time 100 the last successful frame of
`camAfterFirstFrame` is 100 seconds old — far beyond the 5-second
staleness threshold, as both `isOpened` and `get_stream_health` report —
yet `read()` still returns `ok = true` with the stale frame: `read()`
performs no staleness check at all, contradicting the claim that a frame
older than the threshold yields `ok = false`. -/
theorem c7_counterexample :
    (100 : ℚ) - camAfterFirstFrame.last_successful_read >
      stale_frame_threshold ∧
    camAfterFirstFrame.isOpened 100 = false ∧
    (camAfterFirstFrame.get_stream_health 100).1 = false ∧
    camAfterFirstFrame.read = (true, some [1, 2, 3]) := by
  rw [camAfterFirstFrame_eq]
  refine ⟨by norm_num [stale_frame_threshold], ?_, ?_, by decide⟩
  · simp [ThreadedCamera.isOpened]
    norm_num [stale_frame_threshold]
  · simp [ThreadedCamera.get_stream_health]
    norm_num [stale_frame_threshold]

/-- C7 (amended): `read()` consults no clock, so its result is independent
of any staleness: it returns `ok = false` exactly when the shared slot has
never been filled (or holds an empty frame) — in particular when no frame
has ever been produced — and otherwise returns `ok = true` together with
the slot's frame (a private copy in the source, modelled by value
semantics); the 5-second staleness threshold affects only `isOpened()` and
`get_stream_health()`, never `read()`. -/
theorem c7_read_ignores_staleness (cam : ThreadedCamera) :
    (cam.frame = none → cam.read = (false, none)) ∧
    (∀ f : Frame, cam.frame = some f → 0 < f.length →
       cam.grabbed = true → cam.read = (true, some f)) := by
  constructor
  · intro h; simp [ThreadedCamera.read, h]
  · intro f hf hlen hg
    have hne : ¬ f.length = 0 := by omega
    simp [ThreadedCamera.read, hf, hne, hg]

/-- C7 witness: a freshly initialised camera (slot never filled) reads
`ok = false`, and `camAfterFirstFrame` reads `ok = true` with its stored
frame. -/
theorem c7_witness :
    (ThreadedCamera.init false true 0).read = (false, none) ∧
    camAfterFirstFrame.read = (true, some [1, 2, 3]) :=
  ⟨(c7_read_ignores_staleness (ThreadedCamera.init false true 0)).1 rfl,
   (c7_read_ignores_staleness camAfterFirstFrame).2 [1, 2, 3] rfl
     (by decide) rfl⟩

/-! ## Producer-loop lemmas for the reconnect policy -/

/-- A forced read failure with the stream neither stale nor at the
consecutive-failure cap leaves the camera untouched and only bumps the
counter. -/
lemma updateStep_fail_quiet (cam : ThreadedCamera) (cf : ℕ) (env : StepEnv)
    (hstream : cam.is_stream = false) (hopen : cam.capOpen = true)
    (hread : env.readFrame = none)
    (hfresh : ¬ env.now - cam.last_successful_read > stale_frame_threshold)
    (hcf : cf + 1 < max_consecutive_failures) :
    cam.updateStep cf env = (cam, cf + 1, true) := by
  have hcf' : ¬ cf + 1 ≥ max_consecutive_failures := by omega
  simp [ThreadedCamera.updateStep, failBranch, hstream, hopen, hread,
    hfresh, hcf']

/-- The 30th consecutive forced read failure (stream not stale, reopen
succeeding, attempts below the cap) performs exactly one reconnect: the
attempt counter rises by one and the failure counter resets. -/
lemma updateStep_fail_cap (cam : ThreadedCamera) (env : StepEnv) (cf : ℕ)
    (hstream : cam.is_stream = false) (hopen : cam.capOpen = true)
    (hread : env.readFrame = none)
    (hfresh : ¬ env.now - cam.last_successful_read > stale_frame_threshold)
    (hcf : cf + 1 ≥ max_consecutive_failures)
    (hatt : cam.reconnect_attempts < max_reconnect_attempts)
    (hok : env.reopenOk2 = true) :
    cam.updateStep cf env =
      ({ cam with reconnect_attempts := cam.reconnect_attempts + 1 },
       0, true) := by
  have hatt' : ¬ cam.reconnect_attempts ≥ max_reconnect_attempts := by omega
  have hcam : ({ cam with capOpen := true, reconnect_attempts := cam.reconnect_attempts + 1 } : ThreadedCamera) =
      { cam with reconnect_attempts := cam.reconnect_attempts + 1 } := by
    cases cam; simp_all
  simp [ThreadedCamera.updateStep, failBranch, ThreadedCamera.reconnect,
    hstream, hopen, hread, hfresh, hatt', hok, hcf, hcam]

/-- Iterating quiet failure steps only accumulates the failure counter. -/
lemma runProducer_fail_quiet (cam : ThreadedCamera) (env : StepEnv)
    (hstream : cam.is_stream = false) (hopen : cam.capOpen = true)
    (hstop : cam.stopped = false) (hread : env.readFrame = none)
    (hfresh : ¬ env.now - cam.last_successful_read > stale_frame_threshold) :
    ∀ (n cf : ℕ), cf + n < max_consecutive_failures →
      runProducer cam cf (List.replicate n env) = (cam, cf + n) := by
  intro n
  induction n with
  | zero => intro cf _; simp [runProducer]
  | succ m ih =>
      intro cf hlt
      have hstep := updateStep_fail_quiet cam cf env hstream hopen hread
        hfresh (by omega)
      have := ih (cf + 1) (by omega)
      simp only [List.replicate_succ, runProducer, hstop, Bool.false_eq_true,
        if_false, hstep]
      rw [this]
      simp only [if_true]
      congr 1
      omega

/-- A burst of `n` consecutive forced read failures ending exactly at the
consecutive-failure cap triggers exactly one reconnect: the attempt counter
rises by one and the failure counter resets to zero. -/
lemma runProducer_burst (cam : ThreadedCamera) (env : StepEnv)
    (hstream : cam.is_stream = false) (hopen : cam.capOpen = true)
    (hstop : cam.stopped = false) (hread : env.readFrame = none)
    (hfresh : ¬ env.now - cam.last_successful_read > stale_frame_threshold)
    (hatt : cam.reconnect_attempts < max_reconnect_attempts)
    (hok : env.reopenOk2 = true) :
    ∀ (n cf : ℕ), cf + n = max_consecutive_failures → 1 ≤ n →
      runProducer cam cf (List.replicate n env) =
        ({ cam with reconnect_attempts := cam.reconnect_attempts + 1 },
         0) := by
  intro n
  induction n with
  | zero => intro cf _ h1; exact absurd h1 (by omega)
  | succ m ih =>
      intro cf hsum h1
      by_cases hm : m = 0
      · subst hm
        have hstep := updateStep_fail_cap cam env cf hstream hopen hread
          hfresh (by omega) hatt hok
        simp [List.replicate, runProducer, hstop, hstep]
      · have hstep := updateStep_fail_quiet cam cf env hstream hopen hread
          hfresh (by omega)
        have hrest := ih (cf + 1) (by omega) (by omega)
        simp only [List.replicate_succ, runProducer, hstop,
          Bool.false_eq_true, if_false, hstep, if_true]
        simpa [hstop] using hrest

/-- `_reconnect` never pushes the attempt counter past the maximum. -/
lemma reconnect_attempts_le (cam : ThreadedCamera) (ok : Bool)
    (h : cam.reconnect_attempts ≤ max_reconnect_attempts) :
    ((cam.reconnect ok).1).reconnect_attempts ≤ max_reconnect_attempts := by
  unfold ThreadedCamera.reconnect
  split_ifs with h1 <;> simp <;> omega

/-- The shared failure branch never pushes the attempt counter past the
maximum. -/
lemma failBranch_attempts_le (cam : ThreadedCamera) (cf : ℕ) (env : StepEnv)
    (h : cam.reconnect_attempts ≤ max_reconnect_attempts) :
    (failBranch cam cf env).1.reconnect_attempts ≤
      max_reconnect_attempts := by
  simp only [failBranch]
  split_ifs <;>
    first
      | exact h
      | exact reconnect_attempts_le cam env.reopenOk h
      | exact reconnect_attempts_le _ env.reopenOk2 h
      | exact reconnect_attempts_le _ env.reopenOk2
          (reconnect_attempts_le cam env.reopenOk h)

/-- One producer iteration never pushes the attempt counter past the
maximum. -/
lemma updateStep_attempts_le (cam : ThreadedCamera) (cf : ℕ) (env : StepEnv)
    (h : cam.reconnect_attempts ≤ max_reconnect_attempts) :
    (cam.updateStep cf env).1.reconnect_attempts ≤
      max_reconnect_attempts := by
  unfold ThreadedCamera.updateStep
  have hrefresh : ∀ cam1 : ThreadedCamera,
      cam1.reconnect_attempts ≤ max_reconnect_attempts →
      ((if cam1.capOpen then
          match env.readFrame with
          | some f =>
              if 0 < f.length then
                ({ cam1 with frame := some f
                             grabbed := true
                             last_successful_read := env.now
                             frame_count := cam1.frame_count + 1
                             reconnect_attempts := 0 }, 0, true)
              else failBranch cam1 cf env
          | none => failBranch cam1 cf env
        else
          ((cam1.reconnect env.reopenOk).1, cf,
            (cam1.reconnect env.reopenOk).2)) :
          ThreadedCamera × ℕ × Bool).1.reconnect_attempts ≤
        max_reconnect_attempts := by
    intro cam1 h1
    split_ifs with hopen
    · cases env.readFrame with
      | none => exact failBranch_attempts_le cam1 cf env h1
      | some f =>
          by_cases hf : 0 < f.length
          · simp only [hf, if_true]
            simp [max_reconnect_attempts]
          · simp only [hf, if_false]
            exact failBranch_attempts_le cam1 cf env h1
    · exact reconnect_attempts_le cam1 env.reopenOk h1
  by_cases hc : (cam.is_stream &&
      decide (env.now - cam.last_refresh > refresh_interval)) = true
  · simp only [hc, if_true]
    exact hrefresh (cam.refresh_stream env.reopenOk env.now)
      (by simp [ThreadedCamera.refresh_stream, max_reconnect_attempts])
  · simp only [hc, if_false]
    exact hrefresh cam h

/-- Across any producer run the attempt counter stays within the maximum. -/
lemma runProducer_attempts_le (cam : ThreadedCamera) (cf : ℕ)
    (envs : List StepEnv)
    (h : cam.reconnect_attempts ≤ max_reconnect_attempts) :
    (runProducer cam cf envs).1.reconnect_attempts ≤
      max_reconnect_attempts := by
  induction envs generalizing cam cf with
  | nil => exact h
  | cons env rest ih =>
      simp only [runProducer]
      split_ifs with hstop hcont
      · exact h
      · exact ih _ _ (updateStep_attempts_le cam cf env h)
      · simpa using updateStep_attempts_le cam cf env h

/-- Once the attempt counter has reached the maximum, `_reconnect` is
terminal: it sets the stop flag and reports failure. -/
lemma reconnect_exhausted (cam : ThreadedCamera) (ok : Bool)
    (h : cam.reconnect_attempts ≥ max_reconnect_attempts) :
    cam.reconnect ok = ({ cam with stopped := true }, false) := by
  simp [ThreadedCamera.reconnect, h]

/-- A stopped producer never runs another iteration: its state is final. -/
lemma runProducer_stopped (cam : ThreadedCamera) (cf : ℕ)
    (envs : List StepEnv) (h : cam.stopped = true) :
    runProducer cam cf envs = (cam, cf) := by
  cases envs <;> simp [runProducer, h]

/-- Whenever the last successful read is at least the staleness threshold
old, `isOpened` reports false. -/
lemma isOpened_stale (cam : ThreadedCamera) (now : ℚ)
    (h : now - cam.last_successful_read ≥ stale_frame_threshold) :
    cam.isOpened now = false := by
  unfold ThreadedCamera.isOpened
  split_ifs with h1
  · rfl
  · simp only [decide_eq_false_iff_not]
    linarith

/-- C6: in the producer loop, (i) a burst of 30 consecutive forced read
failures (local source, capture open, stream not yet stale, attempts below
the cap, reopen succeeding) triggers exactly one reconnect — the attempt
counter rises by exactly one and the failure counter resets; (ii) the
reconnect-attempt counter never exceeds the maximum of 5 on any run;
(iii) a reconnect at the cap is terminal: it sets the stop flag and
reports failure, so the loop breaks; (iv) a stopped producer is stopped
permanently — no further environment changes its state; and (v) from any
moment at least the 5-second staleness threshold after the last successful
read — which after a terminal stop is every moment from then on, since the
stopped producer never refreshes `last_successful_read` — `isOpened()`
returns false. -/
theorem c6_reconnect_policy :
    (∀ (cam : ThreadedCamera) (env : StepEnv),
       cam.is_stream = false → cam.capOpen = true → cam.stopped = false →
       env.readFrame = none →
       ¬ env.now - cam.last_successful_read > stale_frame_threshold →
       cam.reconnect_attempts < max_reconnect_attempts →
       env.reopenOk2 = true →
       runProducer cam 0 (List.replicate max_consecutive_failures env) =
         ({ cam with reconnect_attempts := cam.reconnect_attempts + 1 },
          0)) ∧
    (∀ (cam : ThreadedCamera) (cf : ℕ) (envs : List StepEnv),
       cam.reconnect_attempts ≤ max_reconnect_attempts →
       (runProducer cam cf envs).1.reconnect_attempts ≤
         max_reconnect_attempts) ∧
    (∀ (cam : ThreadedCamera) (ok : Bool),
       cam.reconnect_attempts ≥ max_reconnect_attempts →
       cam.reconnect ok = ({ cam with stopped := true }, false)) ∧
    (∀ (cam : ThreadedCamera) (cf : ℕ) (envs : List StepEnv),
       cam.stopped = true → runProducer cam cf envs = (cam, cf)) ∧
    (∀ (cam : ThreadedCamera) (now : ℚ),
       now - cam.last_successful_read ≥ stale_frame_threshold →
       cam.isOpened now = false) := by
  refine ⟨?_, ?_, ?_, ?_, ?_⟩
  · intro cam env h1 h2 h3 h4 h5 h6 h7
    exact runProducer_burst cam env h1 h2 h3 h4 h5 h6 h7
      max_consecutive_failures 0 (by omega)
      (by norm_num [max_consecutive_failures])
  · intro cam cf envs h
    exact runProducer_attempts_le cam cf envs h
  · intro cam ok h
    exact reconnect_exhausted cam ok h
  · intro cam cf envs h
    exact runProducer_stopped cam cf envs h
  · intro cam now h
    exact isOpened_stale cam now h

/-- A camera two reconnect attempts into a session (local source, open
capture, fresh otherwise), used to witness the C6 conjuncts concretely. -/
def camTwoAttempts : ThreadedCamera :=
  { ThreadedCamera.init false true 0 with reconnect_attempts := 2 }

/-- A camera whose reconnect attempts are exhausted. -/
def camExhausted : ThreadedCamera :=
  { ThreadedCamera.init false true 0 with reconnect_attempts := 5 }

/-- A stopped camera. -/
def camStopped : ThreadedCamera :=
  { ThreadedCamera.init false true 0 with stopped := true }

/-- A forced-failure environment at t = 1s: read fails, reopens succeed. -/
def envFail : StepEnv := ⟨1, none, true, true⟩

/-- C6 witness: a 30-failure burst from 2 attempts ends with 3 attempts and
a reset counter; a run keeps attempts ≤ 5; an exhausted camera's reconnect
stops it; a stopped camera ignores further iterations; and 100 seconds
after the last successful read `isOpened` is false. -/
theorem c6_witness :
    runProducer camTwoAttempts 0 (List.replicate max_consecutive_failures
        envFail) = ({ camTwoAttempts with reconnect_attempts := 3 }, 0) ∧
    (runProducer camTwoAttempts 0 (List.replicate 100
        envFail)).1.reconnect_attempts ≤ max_reconnect_attempts ∧
    camExhausted.reconnect true = ({ camExhausted with stopped := true },
      false) ∧
    runProducer camStopped 7 [envFail, envFail] = (camStopped, 7) ∧
    camExhausted.isOpened 100 = false := by
  refine ⟨?_, ?_, ?_, ?_, ?_⟩
  · exact c6_reconnect_policy.1 camTwoAttempts envFail rfl rfl rfl rfl
      (by norm_num [camTwoAttempts, ThreadedCamera.init, envFail,
        stale_frame_threshold])
      (by norm_num [camTwoAttempts, ThreadedCamera.init,
        max_reconnect_attempts]) rfl
  · exact c6_reconnect_policy.2.1 camTwoAttempts 0 (List.replicate 100
      envFail) (by norm_num [camTwoAttempts, ThreadedCamera.init,
        max_reconnect_attempts])
  · exact c6_reconnect_policy.2.2.1 camExhausted true
      (by norm_num [camExhausted, ThreadedCamera.init,
        max_reconnect_attempts])
  · exact c6_reconnect_policy.2.2.2.1 camStopped 7 [envFail, envFail] rfl
  · exact c6_reconnect_policy.2.2.2.2 camExhausted 100
      (by norm_num [camExhausted, ThreadedCamera.init,
        stale_frame_threshold])

end SafeEdge
